import Mathlib

/-!
Verification of the store-credit HTTP API (two variants: `index.js` and the
unnamed second variant, called v1 and v2 here).  Handlers are shallowly
embedded as pure functions over an in-memory user table; the database is a
list of user rows, a `SELECT ... WHERE` is `List.find?`, and an
`UPDATE ... WHERE` is a `List.map` that rewrites the matching rows.
External effects (bcrypt, JWT signature checking, the reCAPTCHA verification
result) are passed in as function or Boolean parameters.
-/

/-- A row of the `users` table.  `saldo` is the numeric balance; `isAdmin`
is the stored admin flag, which the code compares against the literal `1`
(`isAdmin !== 1`). -/
structure User where
  id : Nat
  name : String
  lastname : String
  email : String
  password : String
  direction : String
  postalcode : String
  saldo : Int
  isAdmin : Nat
deriving Repr, DecidableEq

/-- The `users` table. -/
abbrev DB := List User

/-- `SELECT * FROM users WHERE id = ?` (first matching row). -/
def findById (db : DB) (uid : Nat) : Option User :=
  db.find? (fun u => u.id == uid)

/-- `SELECT * FROM users WHERE email = ?` (first matching row). -/
def findByEmail (db : DB) (e : String) : Option User :=
  db.find? (fun u => u.email == e)

/-- `UPDATE users SET saldo = ? WHERE id = ?`. -/
def updateSaldoById (db : DB) (uid : Nat) (s : Int) : DB :=
  db.map (fun u => if u.id == uid then { u with saldo := s } else u)

/-- `UPDATE users SET saldo = ? WHERE email = ?`. -/
def updateSaldoByEmail (db : DB) (e : String) (s : Int) : DB :=
  db.map (fun u => if u.email == e then { u with saldo := s } else u)

/-- JavaScript falsiness of an optional string body field: absent
(`undefined`) or the empty string. -/
def jsFalsyStr : Option String → Bool
  | none => true
  | some s => s == ""

/-- A JSON response from one of the balance routes: HTTP status,
the `newSaldo` field when present, and the `message` field when present. -/
structure SaldoResp where
  status : Nat
  newSaldo : Option Int
  message : Option String
deriving Repr, DecidableEq

/-- `POST /api/v1/user/saldo` (identical in both variants).  `amount` is
`none` when the body's `amount` is not a number (`typeof amount !== 'number'`).
The authenticated user id comes from the verified JWT payload. -/
def postSaldo (db : DB) (userId : Nat) (amount : Option Int) : SaldoResp × DB :=
  match amount with
  | none => (⟨400, none, some "El valor de amount debe ser un número"⟩, db)
  | some a =>
    match findById db userId with
    | none => (⟨404, none, some "Usuario no encontrado"⟩, db)
    | some u =>
      let newSaldo := u.saldo + a
      if newSaldo < 0 then
        (⟨400, none, some "Saldo insuficiente"⟩, db)
      else
        (⟨200, some newSaldo, none⟩, updateSaldoById db userId newSaldo)

/-- `POST /api/v1/user/actualizar` (v1 only).  This route is registered
WITHOUT `authMiddleware`: the handler receives no token and performs no
token or role check, so it is embedded with no authentication input at all.
`userId` and `total` come straight from the request body (`none` = absent or
non-numeric). -/
def postActualizar (db : DB) (userId : Option Nat) (total : Option Int) :
    SaldoResp × DB :=
  match total with
  | none => (⟨400, none, some "El total de la compra es inválido"⟩, db)
  | some t =>
    if t ≤ 0 then (⟨400, none, some "El total de la compra es inválido"⟩, db)
    else
      match userId with
      | none => (⟨404, none, some "Usuario no encontrado"⟩, db)
      | some uid =>
        match findById db uid with
        | none => (⟨404, none, some "Usuario no encontrado"⟩, db)
        | some u =>
          let newSaldo := u.saldo - t
          if newSaldo < 0 then (⟨400, none, some "Saldo insuficiente"⟩, db)
          else (⟨200, some newSaldo, some "Saldo actualizado con éxito"⟩,
                updateSaldoById db uid newSaldo)

/-- `PUT /api/v1/user/updateSaldo` (v1 only).  Body validation first
(`!email || typeof saldo !== 'number'` → 400), then the admin check on the
authenticated caller (`rows.length === 0 || rows[0].isAdmin !== 1` → 403),
then the target lookup by email, then the unconditional add-and-persist.
Note: the source performs NO non-negativity check on `newSaldo` here. -/
def putUpdateSaldo (db : DB) (callerId : Nat) (email : Option String)
    (saldo : Option Int) : SaldoResp × DB :=
  match email, saldo with
  | some e, some s =>
    if e == "" then
      (⟨400, none, some "Faltan datos o el saldo no es un número válido"⟩, db)
    else
      match findById db callerId with
      | none =>
        (⟨403, none,
          some "Acceso denegado. Solo el administrador puede modificar el saldo."⟩, db)
      | some caller =>
        if caller.isAdmin != 1 then
          (⟨403, none,
            some "Acceso denegado. Solo el administrador puede modificar el saldo."⟩, db)
        else
          match findByEmail db e with
          | none => (⟨404, none, some "Usuario no encontrado"⟩, db)
          | some target =>
            let newSaldo := target.saldo + s
            (⟨200, some newSaldo, some "Saldo actualizado correctamente"⟩,
             updateSaldoByEmail db e newSaldo)
  | _, _ =>
    (⟨400, none, some "Faltan datos o el saldo no es un número válido"⟩, db)

/-- One balance-mutating request, for reasoning about sequences of
operations. -/
inductive BalanceOp where
  | saldo (userId : Nat) (amount : Option Int)
  | actualizar (userId : Option Nat) (total : Option Int)
  | updateSaldo (callerId : Nat) (email : Option String) (delta : Option Int)
deriving Repr, DecidableEq

/-- The database after one balance-mutating request completes. -/
def applyOp (db : DB) (op : BalanceOp) : DB :=
  match op with
  | .saldo uid a => (postSaldo db uid a).2
  | .actualizar uid t => (postActualizar db uid t).2
  | .updateSaldo c e d => (putUpdateSaldo db c e d).2

/-- Every stored balance is non-negative. -/
def NonNegDB (db : DB) : Prop := ∀ u ∈ db, 0 ≤ u.saldo

instance : DecidablePred NonNegDB := fun db =>
  inferInstanceAs (Decidable (∀ u ∈ db, 0 ≤ u.saldo))

/-- Whether a `BalanceOp` is the admin override route. -/
def BalanceOp.isUpdateSaldo : BalanceOp → Bool
  | .updateSaldo _ _ _ => true
  | _ => false

/-- The claims `jwt.sign` puts in a v1 token: `{ userId, username, isAdmin }`. -/
structure JwtPayload where
  userId : Nat
  username : String
  isAdmin : Nat
deriving Repr, DecidableEq

/-- The claims `jwt.sign` puts in a v2 token: `{ userId, username }`. -/
structure JwtPayload2 where
  userId : Nat
  username : String
deriving Repr, DecidableEq

/-- A signed token: the payload plus the issued-at and expiry timestamps
(seconds) that `jwt.sign` embeds. -/
structure SignedToken (P : Type) where
  payload : P
  iat : Nat
  exp : Nat
deriving Repr, DecidableEq

/-- `jwt.sign(payload, secret, { expiresIn: '1h' })`: the expiry is the
issuance time plus 3600 seconds. -/
def jwtSign {P : Type} (p : P) (now : Nat) : SignedToken P :=
  ⟨p, now, now + 3600⟩

/-- Outcome of `authMiddleware`: either a response is sent and the handler
never runs, or the decoded payload is attached to `req.user` and `next()`
is called. -/
inductive AuthResult where
  | reject (status : Nat) (message : String)
  | proceed (payload : JwtPayload)
deriving Repr, DecidableEq

/-- `authMiddleware` (identical in both variants).  `token` is
`req.header('Authorization')?.replace('Bearer ', '')`: `none` when the
header is absent, and the empty string (also falsy in JS) when the header
was exactly the bearer prefix.  `verify` abstracts
`jwt.verify(token, secret)`: it returns the decoded payload on a valid
token and `none` (the thrown error) on a malformed, tampered or expired
one. -/
def authMiddleware (verify : String → Option JwtPayload)
    (token : Option String) : AuthResult :=
  match token with
  | none => .reject 401 "No token provided"
  | some t =>
    if t == "" then .reject 401 "No token provided"
    else
      match verify t with
      | some payload => .proceed payload
      | none => .reject 401 "Invalid or expired token"

/-- The v1 login response's `user` projection:
`{ id, name, lastname, email, isAdmin }` — built from the row without its
`password` column. -/
structure UserProjection where
  id : Nat
  name : String
  lastname : String
  email : String
  isAdmin : Nat
deriving Repr, DecidableEq

/-- The sanitized projection v1 login and register return. -/
def loginProjection (u : User) : UserProjection :=
  ⟨u.id, u.name, u.lastname, u.email, u.isAdmin⟩

/-- The v2 login response's `user` projection: `{ id, name, lastname, email }`. -/
structure UserProjection2 where
  id : Nat
  name : String
  lastname : String
  email : String
deriving Repr, DecidableEq

/-- The sanitized projection v2 login returns. -/
def loginProjection2 (u : User) : UserProjection2 :=
  ⟨u.id, u.name, u.lastname, u.email⟩

/-- Result of v1 `POST /api/v1/user/login`: an error response, or the
success body with its token and user projection. -/
inductive LoginRes1 where
  | err (status : Nat) (message : String)
  | ok (token : SignedToken JwtPayload) (user : UserProjection)
deriving Repr, DecidableEq

/-- v1 `POST /api/v1/user/login`.  `chk` abstracts
`bcrypt.compare(password, user.password)`.  `recaptchaSuccess` is the
`success` field of the reCAPTCHA verification response: the handler awaits
the verification call but never reads its result, so the parameter is
unused — exactly as in the source. -/
def login_v1 (db : DB) (email password : Option String)
    (chk : String → String → Bool) (recaptchaSuccess : Bool) (now : Nat) :
    LoginRes1 :=
  if jsFalsyStr email || jsFalsyStr password then
    .err 400 "Faltan credenciales"
  else
    match findByEmail db (email.getD "") with
    | none => .err 400 "Usuario no encontrado o error al recuperar los datos"
    | some user =>
      if chk (password.getD "") user.password then
        .ok (jwtSign ⟨user.id, user.name, user.isAdmin⟩ now)
            (loginProjection user)
      else
        .err 400 "Contraseña incorrecta"

/-- Result of v2 `POST /api/v1/user/login`. -/
inductive LoginRes2 where
  | err (status : Nat) (message : String)
  | ok (token : SignedToken JwtPayload2) (user : UserProjection2)
deriving Repr, DecidableEq

/-- v2 `POST /api/v1/user/login` (no reCAPTCHA in this variant). -/
def login_v2 (db : DB) (email password : Option String)
    (chk : String → String → Bool) (now : Nat) : LoginRes2 :=
  if jsFalsyStr email || jsFalsyStr password then
    .err 400 "Faltan credenciales"
  else
    match findByEmail db (email.getD "") with
    | none => .err 400 "Usuario no encontrado o error al recuerar los datos"
    | some user =>
      if chk (password.getD "") user.password then
        .ok (jwtSign ⟨user.id, user.name⟩ now) (loginProjection2 user)
      else
        .err 400 "Contraseña incorrecta"

/-- Request body of the register routes. -/
structure RegisterBody where
  name : Option String
  lastname : Option String
  email : Option String
  password : Option String
  direction : Option String
  postalcode : Option String
deriving Repr, DecidableEq

/-- `!name || !lastname || !email || !password || !direction || !postalcode`. -/
def missingFields (b : RegisterBody) : Bool :=
  jsFalsyStr b.name || jsFalsyStr b.lastname || jsFalsyStr b.email ||
  jsFalsyStr b.password || jsFalsyStr b.direction || jsFalsyStr b.postalcode

/-- Response of v1 `POST /api/v1/user/register`: status plus, on 201, the
signed token. -/
structure RegisterResp where
  status : Nat
  token : Option (SignedToken JwtPayload)
deriving Repr, DecidableEq

/-- v1 `POST /api/v1/user/register`.  `hash` abstracts
`bcrypt.hash(password, 10)`; `newId` is the row id the database assigns to
the inserted row; the insert writes `saldo = 0`, and `isAdmin` takes the
table's default (0). -/
def register_v1 (db : DB) (b : RegisterBody) (recaptchaSuccess : Bool)
    (hash : String → String) (newId now : Nat) : RegisterResp × DB :=
  if missingFields b then (⟨400, none⟩, db)
  else if !recaptchaSuccess then (⟨400, none⟩, db)
  else
    match findByEmail db (b.email.getD "") with
    | some _ => (⟨400, none⟩, db)
    | none =>
      let u : User :=
        ⟨newId, b.name.getD "", b.lastname.getD "", b.email.getD "",
         hash (b.password.getD ""), b.direction.getD "", b.postalcode.getD "",
         0, 0⟩
      let db' := db ++ [u]
      (⟨201, some (jwtSign ⟨u.id, u.name, u.isAdmin⟩ now)⟩, db')

/-- What a `db.execute` call returns in v2: a `ResultSet` object whose rows
live in its `rows` property. -/
structure ResultSet where
  rows : List User
deriving Repr, DecidableEq

/-- JS `result.length` on a `ResultSet`: the object has no `length`
property, so the read yields `undefined` (`none`). -/
def ResultSet.jsLength (_ : ResultSet) : Option Nat := none

/-- JS `x > 0` where `x` may be `undefined`: `undefined > 0` is `false`. -/
def jsGtZero : Option Nat → Bool
  | none => false
  | some n => decide (0 < n)

/-- v2 `POST /api/v1/user/register`.  The duplicate check is transcribed as
in the source: it tests `result && result.length > 0` on the `ResultSet`
object itself (not on `result.rows`), so the condition reads `undefined > 0`.
The insert names no `saldo` column; the row takes the table defaults for
`saldo` and `isAdmin` (0).  Returns only a status (no token in this
variant). -/
def register_v2 (db : DB) (b : RegisterBody) (hash : String → String)
    (newId : Nat) : Nat × DB :=
  if missingFields b then (400, db)
  else
    let result : ResultSet := ⟨(findByEmail db (b.email.getD "")).toList⟩
    if jsGtZero result.jsLength then (400, db)
    else
      let u : User :=
        ⟨newId, b.name.getD "", b.lastname.getD "", b.email.getD "",
         hash (b.password.getD ""), b.direction.getD "", b.postalcode.getD "",
         0, 0⟩
      (201, db ++ [u])

/-! Sample rows used to instantiate theorems with hypotheses. -/

/-- A sample admin row (`isAdmin = 1`). -/
def sampleAdmin : User := ⟨1, "Ana", "Admin", "ana@x.com", "h1", "d1", "p1", 0, 1⟩

/-- A sample non-admin row with balance 10. -/
def sampleUser : User := ⟨2, "Bob", "User", "bob@x.com", "h2", "d2", "p2", 10, 0⟩

/-! Helper lemmas about the embedded SQL operations. -/

/-- Reading back the row just written: looking up `uid` after
`UPDATE users SET saldo = s WHERE id = uid` yields the originally found row
with its balance replaced. -/
theorem findById_updateSaldoById (db : DB) (uid : Nat) (s : Int) :
    findById (updateSaldoById db uid s) uid =
      (findById db uid).map (fun u => { u with saldo := s }) := by
  induction db with
  | nil => rfl
  | cons h t ih =>
    by_cases hm : (h.id == uid) = true
    · simp [findById, updateSaldoById, List.find?, hm]
    · simp only [findById, updateSaldoById, List.map_cons, List.find?] at ih ⊢
      rw [if_neg hm]
      simp only [hm]
      exact ih

/-- A saldo update with a non-negative value preserves database
non-negativity. -/
theorem nonNeg_updateSaldoById (db : DB) (uid : Nat) (s : Int)
    (hs : 0 ≤ s) (h : NonNegDB db) : NonNegDB (updateSaldoById db uid s) := by
  intro u hu
  rcases List.mem_map.mp hu with ⟨v, hv, hvu⟩
  by_cases hid : (v.id == uid) = true
  · rw [← hvu, if_pos hid]
    exact hs
  · rw [← hvu, if_neg hid]
    exact h v hv

/-- `POST saldo` preserves database non-negativity: it only writes
`newSaldo` after checking `newSaldo < 0` fails. -/
theorem nonNeg_postSaldo (db : DB) (uid : Nat) (a : Option Int)
    (h : NonNegDB db) : NonNegDB (postSaldo db uid a).2 := by
  unfold postSaldo
  cases a with
  | none => exact h
  | some x =>
    cases hf : findById db uid with
    | none => exact h
    | some u =>
      simp only
      by_cases hneg : u.saldo + x < 0
      · rw [if_pos hneg]
        exact h
      · rw [if_neg hneg]
        exact nonNeg_updateSaldoById db uid _ (le_of_not_lt hneg) h

/-- `POST actualizar` preserves database non-negativity. -/
theorem nonNeg_postActualizar (db : DB) (uid : Option Nat) (t : Option Int)
    (h : NonNegDB db) : NonNegDB (postActualizar db uid t).2 := by
  unfold postActualizar
  split
  · exact h
  · split
    · exact h
    · split
      · exact h
      · split
        · exact h
        · dsimp only
          split
          · exact h
          · next hneg =>
            exact nonNeg_updateSaldoById db _ _ (le_of_not_lt hneg) h

/-- Any balance operation other than the admin override preserves database
non-negativity. -/
theorem nonNeg_applyOp (db : DB) (op : BalanceOp)
    (hop : op.isUpdateSaldo = false) (h : NonNegDB db) :
    NonNegDB (applyOp db op) := by
  cases op with
  | saldo uid a => exact nonNeg_postSaldo db uid a h
  | actualizar uid t => exact nonNeg_postActualizar db uid t h
  | updateSaldo c e d => exact absurd hop (by simp [BalanceOp.isUpdateSaldo])

/-! Claim theorems. -/

/-- C1 (counterexample): the non-negativity invariant does NOT survive every
balance-mutating operation.  Starting from an all-non-negative table holding
only an admin with balance 0, a `PUT updateSaldo` by that admin with delta
−5 drives the stored balance to −5: the source adds the delta and persists
with no non-negativity check. -/
theorem putUpdateSaldo_breaks_nonneg :
    NonNegDB [sampleAdmin] ∧
    ¬ NonNegDB (applyOp [sampleAdmin]
        (.updateSaldo 1 (some "ana@x.com") (some (-5)))) ∧
    (findByEmail (applyOp [sampleAdmin]
        (.updateSaldo 1 (some "ana@x.com") (some (-5)))) "ana@x.com").map
      User.saldo = some (-5) := by
  refine ⟨by decide, by decide, by decide⟩

/-- C1 (amended): across any sequence of balance-mutating operations that
does not use the admin override `PUT updateSaldo`, every stored balance
stays non-negative — `POST saldo` and `POST actualizar` both reject any
write with `newSaldo < 0`, while `PUT updateSaldo` persists
`currentSaldo + saldo` unconditionally. -/
theorem nonneg_preserved_without_updateSaldo (ops : List BalanceOp) (db : DB)
    (hops : ∀ op ∈ ops, op.isUpdateSaldo = false) (h : NonNegDB db) :
    NonNegDB (List.foldl applyOp db ops) := by
  induction ops generalizing db with
  | nil => exact h
  | cons op rest ih =>
    rw [List.foldl_cons]
    exact ih (applyOp db op)
      (fun o ho => hops o (List.mem_cons_of_mem op ho))
      (nonNeg_applyOp db op (hops op (List.mem_cons_self op rest)) h)

/-- C1 witness: a concrete credit then debit sequence keeps the table
non-negative. -/
theorem nonneg_preserved_without_updateSaldo_witness :
    NonNegDB (List.foldl applyOp [sampleAdmin, sampleUser]
      [.saldo 2 (some 5), .actualizar (some 2) (some 3)]) :=
  nonneg_preserved_without_updateSaldo
    [.saldo 2 (some 5), .actualizar (some 2) (some 3)]
    [sampleAdmin, sampleUser] (by decide) (by decide)

/-- C2: `POST actualizar` is registered without `authMiddleware`, so its
handler takes no token at all (see `postActualizar`); it never answers 401
or 403, and whenever the body carries a known `userId` and a positive
numeric `total_amount` not exceeding that user's balance it debits the
stored balance by `total_amount`. -/
theorem actualizar_unauthenticated_debit (db : DB) (userId : Option Nat)
    (total : Option Int) :
    ((postActualizar db userId total).1.status ≠ 401 ∧
     (postActualizar db userId total).1.status ≠ 403) ∧
    (∀ uid t u, userId = some uid → total = some t →
      findById db uid = some u → 0 < t → t ≤ u.saldo →
      postActualizar db userId total =
        (⟨200, some (u.saldo - t), some "Saldo actualizado con éxito"⟩,
         updateSaldoById db uid (u.saldo - t))) := by
  constructor
  · have hstat : ∀ r : SaldoResp × DB,
        r.1.status = 400 ∨ r.1.status = 404 ∨ r.1.status = 200 →
        r.1.status ≠ 401 ∧ r.1.status ≠ 403 := by
      rintro r (h | h | h) <;> rw [h] <;> exact ⟨by decide, by decide⟩
    apply hstat
    unfold postActualizar
    split
    · exact Or.inl rfl
    · split
      · exact Or.inl rfl
      · split
        · exact Or.inr (Or.inl rfl)
        · split
          · exact Or.inr (Or.inl rfl)
          · dsimp only
            split
            · exact Or.inl rfl
            · exact Or.inr (Or.inr rfl)
  · rintro uid t u rfl rfl hf ht hle
    simp only [postActualizar, hf, if_neg (not_le.mpr ht),
      if_neg (not_lt.mpr (sub_nonneg.mpr hle))]

/-- C2 witness: with no token in sight, a debit of 4 against the sample
user's balance of 10 succeeds and stores 6. -/
theorem actualizar_unauthenticated_debit_witness :
    (postActualizar [sampleUser] (some 2) (some 4)).1.status ≠ 401 ∧
    postActualizar [sampleUser] (some 2) (some 4) =
      (⟨200, some 6, some "Saldo actualizado con éxito"⟩,
       updateSaldoById [sampleUser] 2 6) := by
  refine ⟨(actualizar_unauthenticated_debit [sampleUser] (some 2) (some 4)).1.1, ?_⟩
  have h := (actualizar_unauthenticated_debit [sampleUser] (some 2) (some 4)).2
    2 4 sampleUser rfl rfl (by decide) (by decide) (by decide)
  simpa using h

/-- C3: in the v2 variant the duplicate-email check is dead code — it tests
`result.length > 0` on the `ResultSet` object (whose `length` is
`undefined`) instead of `result.rows.length` — so registering an email that
already has a row answers 201 and appends a second row, where the claim and
spec require 400 and no new row.  For contrast, the v1 variant (which
correctly tests `existingUser.rows.length > 0`) does answer 400 and leaves
the table unchanged on the same duplicate input. -/
theorem register_v2_duplicate_email_inserts_row :
    ((register_v2 [sampleUser]
        ⟨some "Bob", some "User", some "bob@x.com", some "pw", some "d2",
         some "p2"⟩ (fun p => p) 3).1 = 201 ∧
     (register_v2 [sampleUser]
        ⟨some "Bob", some "User", some "bob@x.com", some "pw", some "d2",
         some "p2"⟩ (fun p => p) 3).2.length = 2) ∧
    ((register_v1 [sampleUser]
        ⟨some "Bob", some "User", some "bob@x.com", some "pw", some "d2",
         some "p2"⟩ true (fun p => p) 3 0).1.status = 400 ∧
     (register_v1 [sampleUser]
        ⟨some "Bob", some "User", some "bob@x.com", some "pw", some "d2",
         some "p2"⟩ true (fun p => p) 3 0).2 = [sampleUser]) := by
  refine ⟨⟨by decide, by decide⟩, by decide, by decide⟩

/-- C4: when the authenticated user's current balance `B` plus the
requested `amount` is negative, `POST saldo` answers 400
"Saldo insuficiente" and returns the database untouched — the `UPDATE`
statement on the success path is never reached. -/
theorem postSaldo_insufficient_rejected (db : DB) (uid : Nat) (a : Int)
    (u : User) (hf : findById db uid = some u) (hneg : u.saldo + a < 0) :
    postSaldo db uid (some a) =
      (⟨400, none, some "Saldo insuficiente"⟩, db) := by
  simp only [postSaldo, hf, if_pos hneg]

/-- C4 witness: a debit of −20 against the sample user's balance of 10 is
rejected with 400 and the table is unchanged. -/
theorem postSaldo_insufficient_rejected_witness :
    postSaldo [sampleUser] 2 (some (-20)) =
      (⟨400, none, some "Saldo insuficiente"⟩, [sampleUser]) :=
  postSaldo_insufficient_rejected [sampleUser] 2 (-20) sampleUser
    (by decide) (by decide)

/-- C5 (counterexample): the claim "a non-admin caller always gets 403" is
false as stated, because body validation runs before the admin check: the
sample non-admin caller sending a body with no numeric `saldo` receives
400, not 403. -/
theorem putUpdateSaldo_nonadmin_400_counterexample :
    (findById [sampleUser] 2 = some sampleUser ∧ sampleUser.isAdmin ≠ 1) ∧
    (putUpdateSaldo [sampleUser] 2 (some "ana@x.com") none).1.status = 400 ∧
    (putUpdateSaldo [sampleUser] 2 (some "ana@x.com") none).1.status ≠ 403 := by
  refine ⟨⟨by decide, by decide⟩, by decide, by decide⟩

/-- C5 (amended): a non-admin authenticated caller sending a well-formed
body (non-empty email, numeric saldo) receives 403, and no request from
such a caller — well-formed or not — mutates any row. -/
theorem putUpdateSaldo_nonadmin_rejected (db : DB) (callerId : Nat)
    (e : String) (s : Int) (c : User) (he : e ≠ "")
    (hc : findById db callerId = some c) (ha : c.isAdmin ≠ 1) :
    putUpdateSaldo db callerId (some e) (some s) =
      (⟨403, none,
        some "Acceso denegado. Solo el administrador puede modificar el saldo."⟩,
       db) ∧
    ∀ email saldo, (putUpdateSaldo db callerId email saldo).2 = db := by
  have hadm : (c.isAdmin != 1) = true := by
    simpa using ha
  have he'' : (e == "") = false := beq_eq_false_iff_ne.mpr he
  constructor
  · simp [putUpdateSaldo, hc, he'', hadm]
  · intro email saldo
    match email, saldo with
    | none, _ => rfl
    | some e', none => rfl
    | some e', some s' =>
      unfold putUpdateSaldo
      dsimp only
      by_cases he' : (e' == "") = true
      · rw [if_pos he']
      · rw [if_neg he', hc]
        dsimp only
        rw [if_pos hadm]

/-- C5 witness: the sample non-admin caller with a well-formed body gets
403 and mutates nothing; a malformed body also mutates nothing. -/
theorem putUpdateSaldo_nonadmin_rejected_witness :
    putUpdateSaldo [sampleUser] 2 (some "ana@x.com") (some 5) =
      (⟨403, none,
        some "Acceso denegado. Solo el administrador puede modificar el saldo."⟩,
       [sampleUser]) ∧
    (putUpdateSaldo [sampleUser] 2 none none).2 = [sampleUser] := by
  have h := putUpdateSaldo_nonadmin_rejected [sampleUser] 2 "ana@x.com" 5
    sampleUser (by decide) (by decide) (by decide)
  exact ⟨h.1, h.2 none none⟩

/-- C6: the session validator.  With no token (header absent, or stripped
to the empty string) it answers 401 "No token provided"; with a token that
`jwt.verify` rejects (malformed, tampered or expired) it answers 401
"Invalid or expired token"; with a token `jwt.verify` accepts it attaches
the decoded payload and passes control to the handler. -/
theorem authMiddleware_contract (verify : String → Option JwtPayload)
    (token : Option String) :
    ((token = none ∨ token = some "") →
      authMiddleware verify token = .reject 401 "No token provided") ∧
    (∀ t, token = some t → t ≠ "" → verify t = none →
      authMiddleware verify token = .reject 401 "Invalid or expired token") ∧
    (∀ t p, token = some t → t ≠ "" → verify t = some p →
      authMiddleware verify token = .proceed p) := by
  refine ⟨?_, ?_, ?_⟩
  · rintro (rfl | rfl)
    · rfl
    · rfl
  · rintro t rfl hne hv
    have hne' : (t == "") = false := beq_eq_false_iff_ne.mpr hne
    simp [authMiddleware, hne', hv]
  · rintro t p rfl hne hv
    have hne' : (t == "") = false := beq_eq_false_iff_ne.mpr hne
    simp [authMiddleware, hne', hv]

/-- A concrete stand-in for `jwt.verify`: accepts exactly the token
"good". -/
def sampleVerify : String → Option JwtPayload :=
  fun t => if t == "good" then some ⟨7, "Ana", 1⟩ else none

/-- C6 witness: all three validator behaviors at concrete tokens. -/
theorem authMiddleware_contract_witness :
    authMiddleware sampleVerify none = .reject 401 "No token provided" ∧
    authMiddleware sampleVerify (some "bad") =
      .reject 401 "Invalid or expired token" ∧
    authMiddleware sampleVerify (some "good") = .proceed ⟨7, "Ana", 1⟩ :=
  ⟨(authMiddleware_contract sampleVerify none).1 (Or.inl rfl),
   (authMiddleware_contract sampleVerify (some "bad")).2.1 "bad" rfl
     (by decide) (by decide),
   (authMiddleware_contract sampleVerify (some "good")).2.2 "good" ⟨7, "Ana", 1⟩
     rfl (by decide) (by decide)⟩

/-- C7: the v1 login handler awaits the reCAPTCHA verification call but
never reads its `success` field, so two login requests identical except for
the verification outcome produce identical responses — status, token and
user projection alike. -/
theorem login_v1_ignores_recaptcha (db : DB) (email password : Option String)
    (chk : String → String → Bool) (now : Nat) (r1 r2 : Bool) :
    login_v1 db email password chk r1 now =
      login_v1 db email password chk r2 now := rfl

/-- C8: every token issued by a successful v1 login, v1 registration, or
v2 login carries `expiresIn: 1h`: its decoded expiry is exactly 3600
seconds after its issued-at time. -/
theorem issued_token_expiry_one_hour (db : DB) (email password : Option String)
    (chk : String → String → Bool) (rc : Bool) (now : Nat) (b : RegisterBody)
    (hash : String → String) (newId : Nat) :
    (∀ tok user, login_v1 db email password chk rc now = .ok tok user →
      tok.exp = tok.iat + 3600) ∧
    (∀ tok, (register_v1 db b rc hash newId now).1.token = some tok →
      tok.exp = tok.iat + 3600) ∧
    (∀ tok user, login_v2 db email password chk now = .ok tok user →
      tok.exp = tok.iat + 3600) := by
  refine ⟨?_, ?_, ?_⟩
  · intro tok user h
    unfold login_v1 at h
    split at h
    · cases h
    · split at h
      · cases h
      · split at h
        · cases h
          rfl
        · cases h
  · intro tok h
    unfold register_v1 at h
    split at h
    · cases h
    · split at h
      · cases h
      · split at h
        · cases h
        · cases h
          rfl
  · intro tok user h
    unfold login_v2 at h
    split at h
    · cases h
    · split at h
      · cases h
      · split at h
        · cases h
          rfl
        · cases h

/-- C8 witness: the token of a concrete successful login expires 3600
seconds after issuance. -/
theorem issued_token_expiry_one_hour_witness :
    (jwtSign (⟨2, "Bob", 0⟩ : JwtPayload) 1000).exp =
      (jwtSign (⟨2, "Bob", 0⟩ : JwtPayload) 1000).iat + 3600 :=
  (issued_token_expiry_one_hour [sampleUser] (some "bob@x.com") (some "pw")
      (fun _ _ => true) true 1000
      ⟨some "Bob", some "User", some "bob@x.com", some "pw", some "d2",
       some "p2"⟩ (fun p => p) 3).1
    (jwtSign ⟨2, "Bob", 0⟩ 1000) (loginProjection sampleUser) rfl

/-- C9: for an authenticated user with non-negative balance `B` and any
`X ≥ 0`, `POST saldo` with `+X` succeeds returning `B + X`, and the
immediately following `POST saldo` with `−X` succeeds returning `B`; the
user's stored row afterwards is exactly the original row, balance `B`
included. -/
theorem saldo_roundtrip (db : DB) (uid : Nat) (u : User) (x : Int)
    (hf : findById db uid = some u) (hB : 0 ≤ u.saldo) (hx : 0 ≤ x) :
    postSaldo db uid (some x) =
      (⟨200, some (u.saldo + x), none⟩, updateSaldoById db uid (u.saldo + x)) ∧
    postSaldo (updateSaldoById db uid (u.saldo + x)) uid (some (-x)) =
      (⟨200, some u.saldo, none⟩,
       updateSaldoById (updateSaldoById db uid (u.saldo + x)) uid u.saldo) ∧
    findById (updateSaldoById (updateSaldoById db uid (u.saldo + x)) uid
      u.saldo) uid = some u := by
  have hnn : ¬(u.saldo + x < 0) := not_lt.mpr (add_nonneg hB hx)
  have hf1 : findById (updateSaldoById db uid (u.saldo + x)) uid =
      some { u with saldo := u.saldo + x } := by
    rw [findById_updateSaldoById, hf]
    rfl
  have harith : u.saldo + x + -x = u.saldo := by ring
  refine ⟨?_, ?_, ?_⟩
  · simp only [postSaldo, hf]
    rw [if_neg hnn]
  · simp only [postSaldo, hf1]
    rw [harith, if_neg (not_lt.mpr hB)]
  · rw [findById_updateSaldoById, hf1]
    rfl

/-- C9 witness: crediting 7 then debiting 7 against the sample user's
balance of 10 returns 10 and restores the stored row. -/
theorem saldo_roundtrip_witness :
    postSaldo [sampleUser] 2 (some 7) =
      (⟨200, some (sampleUser.saldo + 7), none⟩,
       updateSaldoById [sampleUser] 2 (sampleUser.saldo + 7)) ∧
    (postSaldo (updateSaldoById [sampleUser] 2 (sampleUser.saldo + 7)) 2
      (some (-7))).1.newSaldo = some sampleUser.saldo := by
  have h := saldo_roundtrip [sampleUser] 2 sampleUser 7 (by decide) (by decide)
    (by decide)
  exact ⟨h.1, by rw [h.2.1]⟩

/-- C10: a successful v1 login returns exactly the sanitized projection of
the stored row, and both variants' projections are invariant under any
change of the stored password hash — the response carries no information
about the hash. -/
theorem login_projection_reveals_no_hash (db : DB)
    (email password : Option String) (chk : String → String → Bool)
    (rc : Bool) (now : Nat) :
    (∀ tok user, login_v1 db email password chk rc now = .ok tok user →
      ∃ u, findByEmail db (email.getD "") = some u ∧
        user = loginProjection u) ∧
    (∀ (u : User) (pw : String),
      loginProjection { u with password := pw } = loginProjection u ∧
      loginProjection2 { u with password := pw } = loginProjection2 u) := by
  refine ⟨?_, fun u pw => ⟨rfl, rfl⟩⟩
  intro tok user h
  unfold login_v1 at h
  split at h
  · cases h
  · split at h
    · cases h
    · next u heq =>
      split at h
      · cases h
        exact ⟨u, heq, rfl⟩
      · cases h

/-- C10 witness: the concrete successful login of the sample user returns
its password-free projection. -/
theorem login_projection_reveals_no_hash_witness :
    ∃ u, findByEmail [sampleUser] "bob@x.com" = some u ∧
      (⟨2, "Bob", "User", "bob@x.com", 0⟩ : UserProjection) =
        loginProjection u :=
  (login_projection_reveals_no_hash [sampleUser] (some "bob@x.com")
      (some "pw") (fun _ _ => true) true 1000).1
    (jwtSign ⟨2, "Bob", 0⟩ 1000) ⟨2, "Bob", "User", "bob@x.com", 0⟩ rfl
